import Mathlib

/-!
Shallow embedding of the incremental pagination and fetch-merge engine of
`src/app/routes/app.products.tsx` (the `ProductsPage` component and its
`loader`), together with theorems settling the specification claims.

The component state consists of the React state hooks `edges` and `pageInfo`,
the ref `lastAppendedCursor`, and the router fetcher's status (`idle` or
loading).  The three `useEffect` blocks become three transition functions:

* `seedEffect`       — the `[products]` effect (lines 128-132): re-seed from
  fresh loader data;
* `onFetchSettled`   — the `[fetcher.data]` effect (lines 134-144): merge an
  arrived page, guarded by the `lastAppendedCursor` duplicate check, or do
  nothing when the fetch settled without data (failure / malformed payload);
* `onSentinelVisible` — the IntersectionObserver callback (lines 146-179):
  request the next page when the binding is installed and the eligibility
  checks pass.

JavaScript truthiness of `pageInfo.endCursor` (a `string | null | undefined`)
is modelled by `cursorTruthy`: both `null`/absent and the empty string are
falsy.  The `?? null` normalisations collapse to the identity on
`Option String`.
-/

/-- Image payload inside `featuredMedia` (`url`, `altText`). Presentation-only
data carried through the state machine unchanged. -/
structure ImageRef where
  url : String
  altText : Option String
deriving DecidableEq, Repr

/-- The `featuredMedia.preview` object (`preview?.image`). -/
structure MediaPreview where
  image : Option ImageRef
deriving DecidableEq, Repr

/-- The `featuredMedia` object of a product (`preview` and the
`MediaImage` fragment's `image`). -/
structure FeaturedMedia where
  preview : Option MediaPreview
  image : Option ImageRef
deriving DecidableEq, Repr

/-- `ProductSummary`: one catalog item; `id` is its stable identifier. -/
structure ProductSummary where
  id : String
  title : String
  status : String
  featuredMedia : Option FeaturedMedia
deriving DecidableEq, Repr

/-- `ProductEdge`: an item together with its per-edge cursor. -/
structure ProductEdge where
  cursor : String
  node : ProductSummary
deriving DecidableEq, Repr

/-- `pageInfo` of a connection: `hasNextPage` and the optional `endCursor`. -/
structure PageInfo where
  hasNextPage : Bool
  endCursor : Option String
deriving DecidableEq, Repr

/-- `ProductConnection`: one page of results — an ordered edge list plus
pagination metadata.  This is the `Page` of the specification. -/
structure ProductConnection where
  edges : List ProductEdge
  pageInfo : PageInfo
deriving DecidableEq, Repr

/-- The router fetcher's state as far as the component reads it:
`fetcher.state === "idle"` or not ("loading"). -/
inductive FetchStatus where
  | idle
  | fetching
deriving DecidableEq, Repr, BEq

/-- The component's mutable state: the `edges` and `pageInfo` state hooks,
the `lastAppendedCursor` ref, and the fetcher status. -/
structure ComponentState where
  edges : List ProductEdge
  pageInfo : PageInfo
  lastAppendedCursor : Option String
  fetchStatus : FetchStatus
deriving DecidableEq, Repr

/-- The `[products]` effect (lines 128-132): replace `edges` and `pageInfo`
with the fresh loader data and record its `endCursor` in
`lastAppendedCursor` (`?? null` is the identity on `Option String`).
The fetcher status is not touched by this effect. -/
def seedEffect (products : ProductConnection) (s : ComponentState) : ComponentState :=
  { s with
    edges := products.edges
    pageInfo := products.pageInfo
    lastAppendedCursor := products.pageInfo.endCursor }

/-- State of a freshly mounted component: `useState(products.edges)`,
`useState(products.pageInfo)`, then the `[products]` effect fires once,
setting `lastAppendedCursor`; the fetcher starts idle. -/
def freshSeed (products : ProductConnection) : ComponentState :=
  { edges := products.edges
    pageInfo := products.pageInfo
    lastAppendedCursor := products.pageInfo.endCursor
    fetchStatus := .idle }

/-- The `[fetcher.data]` effect (lines 134-144), run when an in-flight fetch
settles.  `result = none` models a settle without usable data
(`fetcher.data?.products` absent: fetch failure or malformed payload) — the
early `if (!incoming) return` leaves every pagination field untouched.
Otherwise the duplicate-delivery guard compares the incoming
`endCursor ?? null` with `lastAppendedCursor` and returns without mutation
on equality; else the incoming edges are appended and the cursors advance.
In every case the fetcher is back to idle once the fetch has settled. -/
def onFetchSettled (result : Option ProductConnection) (s : ComponentState) :
    ComponentState :=
  match result with
  | none => { s with fetchStatus := .idle }
  | some incoming =>
    let nextCursor := incoming.pageInfo.endCursor
    if s.lastAppendedCursor = nextCursor then
      { s with fetchStatus := .idle }
    else
      { edges := s.edges ++ incoming.edges
        pageInfo := incoming.pageInfo
        lastAppendedCursor := nextCursor
        fetchStatus := .idle }

/-- JavaScript truthiness of the optional `endCursor` string: `null`,
absent, and `""` are falsy. -/
def cursorTruthy : Option String → Bool
  | none => false
  | some c => c != ""

/-- Whether the observer effect (lines 146-149) installs a binding on the
sentinel: it returns early unless `pageInfo.hasNextPage` and
`pageInfo.endCursor` are both truthy. -/
def bindingInstalled (s : ComponentState) : Bool :=
  s.pageInfo.hasNextPage && cursorTruthy s.pageInfo.endCursor

/-- The guard of the observer callback (lines 154-159): the sentinel is
intersecting, the fetcher is idle, and `hasNextPage` / `endCursor` are
truthy.  A fetch can only fire when a binding was installed at all. -/
def fetchTriggered (s : ComponentState) : Bool :=
  bindingInstalled s &&
    (s.fetchStatus == .idle) &&
    s.pageInfo.hasNextPage &&
    cursorTruthy s.pageInfo.endCursor

/-- The sentinel-visibility event: when the guard passes, `fetcher.load`
is invoked (returned boolean) and the fetcher leaves idle; otherwise
nothing happens. -/
def onSentinelVisible (s : ComponentState) : ComponentState × Bool :=
  if fetchTriggered s then ({ s with fetchStatus := .fetching }, true)
  else (s, false)

/-- Events the component reacts to after mounting: a sentinel visibility
callback, the settling of the in-flight fetch (with or without a usable
page), or fresh loader data re-seeding the state. -/
inductive PageEvent where
  | sentinel
  | settled (result : Option ProductConnection)
  | seeded (products : ProductConnection)

/-- One event step.  The boolean records whether this step invoked the
Fetcher (`fetcher.load`).  A `settled` event only exists for an in-flight
fetch: with an idle fetcher there is no pending continuation, so the
event is a no-op. -/
def step (s : ComponentState) : PageEvent → ComponentState × Bool
  | .sentinel => onSentinelVisible s
  | .settled result =>
    match s.fetchStatus with
    | .idle => (s, false)
    | .fetching => (onFetchSettled result s, false)
  | .seeded products => (seedEffect products s, false)

/-- Run a sequence of events, returning the final state and the total
number of Fetcher invocations along the way. -/
def runTrace (s : ComponentState) : List PageEvent → ComponentState × Nat
  | [] => (s, 0)
  | e :: es =>
    let p := step s e
    let q := runTrace p.1 es
    (q.1, (if p.2 then 1 else 0) + q.2)

/-- Whether a trace contains no re-seed event. -/
def seedFree : List PageEvent → Bool
  | [] => true
  | .seeded _ :: _ => false
  | _ :: es => seedFree es

/-- Fold a list of arrived pages into the state through the merge effect. -/
def mergeAll (s : ComponentState) (ps : List ProductConnection) : ComponentState :=
  ps.foldl (fun t p => onFetchSettled (some p) t) s

/-- Whether every page in the list passes the duplicate-delivery guard when
merged in order (each merge actually appends). -/
def mergesOk : ComponentState → List ProductConnection → Bool
  | _, [] => true
  | s, p :: ps =>
    (s.lastAppendedCursor != p.pageInfo.endCursor) &&
      mergesOk (onFetchSettled (some p) s) ps

/-- The identifiers of an edge list, in order. -/
def edgeIds (es : List ProductEdge) : List String :=
  es.map (fun e => e.node.id)

/-- The `data` object of the GraphQL payload (`data?.products`). -/
structure ProductsData where
  products : Option ProductConnection
deriving DecidableEq, Repr

/-- The GraphQL response payload as the loader reads it: optional `data`
holding an optional `products` connection, and an optional `errors` list
(only the messages matter to the loader). -/
structure ProductsQuery where
  data : Option ProductsData
  errors : Option (List String)
deriving DecidableEq, Repr

/-- Truthiness of `payload.errors?.length` (line 102). -/
def payloadHasErrors (payload : ProductsQuery) : Bool :=
  match payload.errors with
  | some es => es.length != 0
  | none => false

/-- The optional chain `payload.data?.products` (line 109). -/
def payloadProducts (payload : ProductsQuery) : Option ProductConnection :=
  match payload.data with
  | some d => d.products
  | none => none

/-- The validation tail of the `loader` (lines 100-117): a payload with a
non-empty `errors` array throws a 500 response; a payload whose
`data?.products` is absent throws a 502; otherwise the connection is
returned. -/
def loaderResult (payload : ProductsQuery) : Except Nat ProductConnection :=
  if payloadHasErrors payload then
    Except.error 500
  else
    match payloadProducts payload with
    | some products => Except.ok products
    | none => Except.error 502

/-- Line 54 of the loader: `url.searchParams.get("after") || undefined` —
an absent or empty `after` query parameter yields no `after` variable
(a first-page fetch); any other string is passed through. -/
def afterParam (raw : Option String) : Option String :=
  match raw with
  | some v => if v = "" then none else some v
  | none => none

/-! Concrete pages and edges used by scenario theorems, counterexamples and
witnesses. -/

/-- A concrete edge with per-edge cursor `c` and product identifier `i`. -/
def mkEdge (c i : String) : ProductEdge :=
  { cursor := c, node := { id := i, title := i, status := "ACTIVE", featuredMedia := none } }

/-- Initial page with items `a, b`, more pages available, end cursor `c1`. -/
def seedAB : ProductConnection :=
  { edges := [mkEdge "x1" "a", mkEdge "x2" "b"], pageInfo := { hasNextPage := true, endCursor := some "c1" } }

/-- A page with items `c, d`, more pages available, end cursor `c2`. -/
def pageCD : ProductConnection :=
  { edges := [mkEdge "x3" "c", mkEdge "x4" "d"], pageInfo := { hasNextPage := true, endCursor := some "c2" } }

/-- A final page with item `e`, no more pages, end cursor `c3`. -/
def pageEF : ProductConnection :=
  { edges := [mkEdge "x5" "e"], pageInfo := { hasNextPage := false, endCursor := some "c3" } }

/-- Initial page with the single item `a`, more available, end cursor `c1`. -/
def seedA : ProductConnection :=
  { edges := [mkEdge "x1" "a"], pageInfo := { hasNextPage := true, endCursor := some "c1" } }

/-- A final page with the single item `b`, no more pages, end cursor `c2`. -/
def pageB : ProductConnection :=
  { edges := [mkEdge "x2" "b"], pageInfo := { hasNextPage := false, endCursor := some "c2" } }

/-- A page sharing identifier `a` with `seedA` but carrying a fresh end
cursor `c2`, so its merge passes the duplicate-delivery guard. -/
def dupPage : ProductConnection :=
  { edges := [mkEdge "y1" "a"], pageInfo := { hasNextPage := true, endCursor := some "c2" } }

/-- An empty initial page with more available, end cursor `c0`. -/
def page0 : ProductConnection :=
  { edges := [], pageInfo := { hasNextPage := true, endCursor := some "c0" } }

/-- A re-seed page declaring the list exhausted (`hasNextPage = false`). -/
def reseedDone : ProductConnection :=
  { edges := [mkEdge "z1" "b"], pageInfo := { hasNextPage := false, endCursor := none } }

/-- A re-seed page with item `b`, more available, end cursor `c1`. -/
def reseedMore : ProductConnection :=
  { edges := [mkEdge "z1" "b"], pageInfo := { hasNextPage := true, endCursor := some "c2x" } }

/-- A page delivered by a fetch that was initiated before a re-seed: its
end cursor `c9` differs from any cursor of the re-seeded state. -/
def stalePage : ProductConnection :=
  { edges := [mkEdge "w1" "z"], pageInfo := { hasNextPage := true, endCursor := some "c9" } }

/-! Helper lemmas shared by the claim theorems. -/

/-- A settled fetch always leaves the fetcher idle, whichever branch of the
merge effect ran. -/
theorem onFetchSettled_idle (r : Option ProductConnection) (s : ComponentState) :
    (onFetchSettled r s).fetchStatus = .idle := by
  cases r with
  | none => rfl
  | some incoming =>
    simp only [onFetchSettled]
    split <;> rfl

/-- The re-seed effect does not touch the fetcher status. -/
theorem seedEffect_fetchStatus (p : ProductConnection) (s : ComponentState) :
    (seedEffect p s).fetchStatus = s.fetchStatus := rfl

/-- A merge that passes the duplicate-delivery guard appends the incoming
edges and adopts the incoming page metadata. -/
theorem onFetchSettled_merge (p : ProductConnection) (s : ComponentState)
    (h : s.lastAppendedCursor ≠ p.pageInfo.endCursor) :
    onFetchSettled (some p) s =
      { edges := s.edges ++ p.edges
        pageInfo := p.pageInfo
        lastAppendedCursor := p.pageInfo.endCursor
        fetchStatus := .idle } := by
  simp only [onFetchSettled]
  rw [if_neg h]

/-- In a state with an idle fetcher and `hasNextPage = false`, any trace of
sentinel and fetch-settle events (no re-seed) leaves the state unchanged and
never invokes the Fetcher. -/
theorem exhaustedIdleFrozen (es : List PageEvent) (s : ComponentState)
    (h1 : s.fetchStatus = .idle) (h2 : s.pageInfo.hasNextPage = false)
    (hseed : seedFree es = true) :
    runTrace s es = (s, 0) := by
  induction es with
  | nil => rfl
  | cons e es ih =>
    cases e with
    | sentinel =>
      have htail : seedFree es = true := hseed
      have htrig : fetchTriggered s = false := by
        simp [fetchTriggered, bindingInstalled, h2]
      simp [runTrace, step, onSentinelVisible, htrig, ih htail]
    | settled r =>
      have htail : seedFree es = true := hseed
      simp [runTrace, step, h1, ih htail]
    | seeded p =>
      simp [seedFree] at hseed

/-- Successful merges concatenate: folding pages that each pass the
duplicate-delivery guard appends their edge lists in arrival order. -/
theorem mergeAll_edges (ps : List ProductConnection) (s : ComponentState)
    (h : mergesOk s ps = true) :
    (mergeAll s ps).edges = s.edges ++ (ps.map ProductConnection.edges).flatten := by
  induction ps generalizing s with
  | nil => simp [mergeAll]
  | cons p ps ih =>
    rw [mergesOk, Bool.and_eq_true] at h
    obtain ⟨h1, h2⟩ := h
    have hne : s.lastAppendedCursor ≠ p.pageInfo.endCursor := bne_iff_ne.mp h1
    have hstep : mergeAll s (p :: ps) = mergeAll (onFetchSettled (some p) s) ps := rfl
    rw [hstep, ih _ h2, onFetchSettled_merge p s hne]
    simp

/-! Claim theorems. -/

/-- C1 (counterexample): the claim that `items` never contains two entries
with the same identifier fails on the code.  Seeding with a page containing
item `a` (end cursor `c1`) and then successfully merging a page that also
contains item `a` (end cursor `c2`, so the duplicate-delivery guard passes)
yields an items list whose identifiers are `[a, a]`: the merge effect
appends blindly and performs no de-duplication by identifier. -/
theorem c1_counterexample :
    mergesOk (freshSeed seedA) [dupPage] = true ∧
    ¬ (edgeIds (mergeAll (freshSeed seedA) [dupPage]).edges).Nodup := by
  decide

/-- C1 (amended): after a seed followed by any sequence of successful merges,
the items list has no repeated identifier provided the identifiers carried by
the seed page and the merged pages are pairwise distinct overall; the merge
itself is plain concatenation and never removes a duplicate. -/
theorem c1_no_duplicate_ids (P0 : ProductConnection) (ps : List ProductConnection)
    (hok : mergesOk (freshSeed P0) ps = true)
    (hids : (edgeIds (P0.edges ++ (ps.map ProductConnection.edges).flatten)).Nodup) :
    (edgeIds (mergeAll (freshSeed P0) ps).edges).Nodup := by
  have h := mergeAll_edges ps (freshSeed P0) hok
  rw [edgeIds, h]
  exact hids

/-- C1 (witness): the amended theorem applied to the concrete seed `[a, b]`
and merged page `[c, d]`, whose identifiers are pairwise distinct. -/
theorem c1_no_duplicate_ids_witness :
    mergesOk (freshSeed seedAB) [pageCD] = true ∧
    (edgeIds (mergeAll (freshSeed seedAB) [pageCD]).edges).Nodup :=
  ⟨by decide, c1_no_duplicate_ids seedAB [pageCD] (by decide) (by decide)⟩

/-- C2: merging a page whose `endCursor` equals `lastAppendedCursor` leaves
`items`, `hasMore` and `cursor` unchanged — the whole state is unchanged
apart from the fetcher being idle again; and concretely, seeding
`{items := [a, b], hasMore := true, endCursor := "c1"}` and then twice
delivering `{items := [c, d], hasMore := true, endCursor := "c2"}` ends with
items `[a, b, c, d]`, not `[a, b, c, d, c, d]`. -/
theorem c2_duplicate_delivery_guard (s : ComponentState) (p : ProductConnection)
    (h : p.pageInfo.endCursor = s.lastAppendedCursor) :
    onFetchSettled (some p) s = { s with fetchStatus := .idle } ∧
    (mergeAll (freshSeed seedAB) [pageCD, pageCD]).edges =
      [mkEdge "x1" "a", mkEdge "x2" "b", mkEdge "x3" "c", mkEdge "x4" "d"] := by
  constructor
  · simp only [onFetchSettled]
    rw [if_pos h.symm]
  · decide

/-- C2 (witness): the guard theorem applied at the state reached after
seeding `[a, b]` and merging `[c, d]` once, with the same page delivered
again. -/
theorem c2_duplicate_delivery_guard_witness :
    onFetchSettled (some pageCD) (mergeAll (freshSeed seedAB) [pageCD]) =
      { mergeAll (freshSeed seedAB) [pageCD] with fetchStatus := .idle } ∧
    (mergeAll (freshSeed seedAB) [pageCD, pageCD]).edges =
      [mkEdge "x1" "a", mkEdge "x2" "b", mkEdge "x3" "c", mkEdge "x4" "d"] :=
  c2_duplicate_delivery_guard (mergeAll (freshSeed seedAB) [pageCD]) pageCD (by decide)

/-- C3 (counterexample): the claim that `seed(P1); seed(P2)` on any state
equals a fresh `seed(P2)` fails on the code, because the seed effect does
not touch the fetcher status.  Starting from the reachable state in which a
fetch is in flight (fresh seed of `page0` followed by a sentinel event),
two consecutive seeds leave the fetcher fetching, while a fresh seed is
idle. -/
theorem c3_counterexample :
    seedEffect pageCD (seedEffect seedAB (runTrace (freshSeed page0) [.sentinel]).1) ≠
      freshSeed pageCD := by
  decide

/-- C3 (amended): for any state whose fetcher is idle (no fetch in flight),
`seed(P1)` followed by `seed(P2)` yields exactly the state of a fresh
`seed(P2)`: items are `P2.items`, `hasMore` is `P2.hasMore`, both cursors
equal `P2.endCursor`, the fetcher is idle, and nothing of `P1` survives.
In general the seed effect leaves the fetcher status unchanged, so with a
fetch in flight the two states differ exactly in that status. -/
theorem c3_reseed_idempotent (s : ComponentState) (P1 P2 : ProductConnection)
    (h : s.fetchStatus = .idle) :
    seedEffect P2 (seedEffect P1 s) = freshSeed P2 := by
  cases s with
  | mk edges pageInfo last st =>
    simp only [seedEffect, freshSeed]
    simp_all

/-- C3 (witness): the amended theorem applied at a freshly seeded (hence
idle) state with the concrete pages `seedAB` and `pageCD`. -/
theorem c3_reseed_idempotent_witness :
    seedEffect pageCD (seedEffect seedAB (freshSeed page0)) = freshSeed pageCD :=
  c3_reseed_idempotent (freshSeed page0) seedAB pageCD rfl

/-- C4: a Fetcher invocation happens only when the fetcher is idle,
`hasNextPage` is true and `endCursor` is non-null; and from any state in
which a sentinel event fires a fetch, two sentinel events in immediate
succession invoke the Fetcher exactly once, because the second one sees the
fetcher already fetching. -/
theorem c4_eligibility_gating (s : ComponentState)
    (h : (onSentinelVisible s).2 = true) :
    s.fetchStatus = .idle ∧ s.pageInfo.hasNextPage = true ∧
    s.pageInfo.endCursor ≠ none ∧
    (runTrace s [.sentinel, .sentinel]).2 = 1 := by
  have htrig : fetchTriggered s = true := by
    cases hft : fetchTriggered s with
    | false => rw [onSentinelVisible, hft] at h; simp at h
    | true => rfl
  have hparts := htrig
  rw [fetchTriggered, bindingInstalled] at hparts
  simp only [Bool.and_eq_true] at hparts
  obtain ⟨⟨⟨⟨hn, hct⟩, hstb⟩, -⟩, -⟩ := hparts
  have hst : s.fetchStatus = .idle := by
    cases hfs : s.fetchStatus with
    | idle => rfl
    | fetching => rw [hfs] at hstb; exact absurd hstb (by decide)
  refine ⟨hst, hn, ?_, ?_⟩
  · intro hnone
    rw [hnone] at hct
    simp [cursorTruthy] at hct
  · have hbeq : (FetchStatus.fetching == FetchStatus.idle) = false := rfl
    have h2 : fetchTriggered { s with fetchStatus := .fetching } = false := by
      simp [fetchTriggered, hbeq]
    simp [runTrace, step, onSentinelVisible, htrig, h2]

/-- C4 (witness): a freshly seeded state with more pages available and a
non-empty cursor fires on the first sentinel event and exactly once across
two consecutive sentinel events. -/
theorem c4_eligibility_gating_witness :
    (freshSeed seedAB).fetchStatus = .idle ∧
    (freshSeed seedAB).pageInfo.hasNextPage = true ∧
    (freshSeed seedAB).pageInfo.endCursor ≠ none ∧
    (runTrace (freshSeed seedAB) [.sentinel, .sentinel]).2 = 1 :=
  c4_eligibility_gating (freshSeed seedAB) (by decide)

/-- C5 (counterexample): the claim fails for a seed that sets `hasMore`
false while a fetch is in flight.  Seed `seedA`, let the sentinel start a
fetch, then re-seed with `reseedDone` (`hasNextPage = false`): the in-flight
fetch later settles with a page whose end cursor differs from the re-seeded
`lastAppendedCursor`, so it merges and sets `hasNextPage` back to true — and
the next sentinel event invokes the Fetcher again. -/
theorem c5_counterexample :
    (runTrace (freshSeed seedA) [.sentinel, .seeded reseedDone]).1.pageInfo.hasNextPage
        = false ∧
    (onSentinelVisible (runTrace (freshSeed seedA)
        [.sentinel, .seeded reseedDone, .settled (some stalePage)]).1).2 = true := by
  decide

/-- C5 (amended): once a merge leaves `hasNextPage = false` — or a re-seed
does so while the fetcher is idle — any subsequent trace of sentinel and
fetch-settle events (no further re-seed) leaves the state unchanged and
never invokes the Fetcher; the guarantee fails only for a re-seed racing an
in-flight fetch, whose stale result may still merge. -/
theorem c5_exhaustion_stops_fetching (s : ComponentState)
    (r : Option ProductConnection) (P : ProductConnection) (es : List PageEvent)
    (hseed : seedFree es = true) :
    ((onFetchSettled r s).pageInfo.hasNextPage = false →
      runTrace (onFetchSettled r s) es = (onFetchSettled r s, 0)) ∧
    (s.fetchStatus = .idle → (seedEffect P s).pageInfo.hasNextPage = false →
      runTrace (seedEffect P s) es = (seedEffect P s, 0)) := by
  constructor
  · intro hm
    exact exhaustedIdleFrozen es _ (onFetchSettled_idle r s) hm hseed
  · intro hidle hm
    exact exhaustedIdleFrozen es _ ((seedEffect_fetchStatus P s).trans hidle) hm hseed

/-- C5 (witness): the amended theorem at the exhausted page `reseedDone`,
with a failing settle and a singleton sentinel trace. -/
theorem c5_exhaustion_stops_fetching_witness :
    runTrace (onFetchSettled none (freshSeed reseedDone)) [.sentinel] =
      (onFetchSettled none (freshSeed reseedDone), 0) :=
  (c5_exhaustion_stops_fetching (freshSeed reseedDone) none reseedDone [.sentinel]
      (by decide)).1 (by decide)

/-- C6: when an in-flight fetch fails (settles without usable data), every
pagination field — items, page info, `lastAppendedCursor` — is exactly as
before and only the fetcher returns to idle; concretely, after seeding
`{items := [a], hasMore := true, endCursor := "c1"}`, a sentinel-triggered
fetch that fails leaves `{items := [a], hasMore := true, cursor := "c1",
idle}`, and a second sentinel-triggered fetch that succeeds with
`{items := [b], hasMore := false, endCursor := "c2"}` ends in
`{items := [a, b], hasMore := false}`. -/
theorem c6_failure_recovery (s : ComponentState) (h : s.fetchStatus = .fetching) :
    onFetchSettled none s = { s with fetchStatus := .idle } ∧
    (runTrace (freshSeed seedA) [.sentinel, .settled none]).1 =
      { edges := [mkEdge "x1" "a"]
        pageInfo := { hasNextPage := true, endCursor := some "c1" }
        lastAppendedCursor := some "c1"
        fetchStatus := .idle } ∧
    (runTrace (freshSeed seedA)
        [.sentinel, .settled none, .sentinel, .settled (some pageB)]).1 =
      { edges := [mkEdge "x1" "a", mkEdge "x2" "b"]
        pageInfo := { hasNextPage := false, endCursor := some "c2" }
        lastAppendedCursor := some "c2"
        fetchStatus := .idle } :=
  ⟨rfl, by decide, by decide⟩

/-- C6 (witness): the theorem applied at the in-flight state reached from
`seedA` after one sentinel event. -/
theorem c6_failure_recovery_witness :
    onFetchSettled none (runTrace (freshSeed seedA) [.sentinel]).1 =
      { (runTrace (freshSeed seedA) [.sentinel]).1 with fetchStatus := .idle } ∧
    (runTrace (freshSeed seedA) [.sentinel, .settled none]).1 =
      { edges := [mkEdge "x1" "a"]
        pageInfo := { hasNextPage := true, endCursor := some "c1" }
        lastAppendedCursor := some "c1"
        fetchStatus := .idle } ∧
    (runTrace (freshSeed seedA)
        [.sentinel, .settled none, .sentinel, .settled (some pageB)]).1 =
      { edges := [mkEdge "x1" "a", mkEdge "x2" "b"]
        pageInfo := { hasNextPage := false, endCursor := some "c2" }
        lastAppendedCursor := some "c2"
        fetchStatus := .idle } :=
  c6_failure_recovery (runTrace (freshSeed seedA) [.sentinel]).1 (by decide)

/-- C7 (counterexample): the claim that a stale in-flight result is always
discarded after a re-seed fails on the code.  Seed `seedA`, start a fetch,
re-seed with `reseedMore`; the stale result's end cursor `c9` differs from
the new `lastAppendedCursor`, yet it is merged: the freshly seeded items
list `[b]` becomes `[b, z]` — the stale page corrupts it. -/
theorem c7_counterexample :
    stalePage.pageInfo.endCursor ≠
      (runTrace (freshSeed seedA) [.sentinel, .seeded reseedMore]).1.lastAppendedCursor ∧
    (runTrace (freshSeed seedA)
        [.sentinel, .seeded reseedMore, .settled (some stalePage)]).1.edges =
      reseedMore.edges ++ stalePage.edges ∧
    (runTrace (freshSeed seedA)
        [.sentinel, .seeded reseedMore, .settled (some stalePage)]).1.edges ≠
      reseedMore.edges := by
  decide

/-- C7 (amended): after a re-seed, the in-flight result is compared with the
new `lastAppendedCursor`, but it is discarded only when its `endCursor`
equals that cursor; whenever the two differ the stale page is appended to
the freshly seeded items list, so a stale page can corrupt a fresh seed. -/
theorem c7_stale_result_handling (s : ComponentState) (p : ProductConnection) :
    (p.pageInfo.endCursor = s.lastAppendedCursor →
      onFetchSettled (some p) s = { s with fetchStatus := .idle }) ∧
    (p.pageInfo.endCursor ≠ s.lastAppendedCursor →
      onFetchSettled (some p) s =
        { edges := s.edges ++ p.edges
          pageInfo := p.pageInfo
          lastAppendedCursor := p.pageInfo.endCursor
          fetchStatus := .idle }) := by
  constructor
  · intro h
    simp only [onFetchSettled]
    rw [if_pos h.symm]
  · intro h
    exact onFetchSettled_merge p s (fun hc => h hc.symm)

/-- C7 (witness): both branches of the amended theorem at the post-re-seed
state of the counterexample trace — a matching cursor is discarded, the
differing stale cursor is merged. -/
theorem c7_stale_result_handling_witness :
    (onFetchSettled (some reseedMore)
        (runTrace (freshSeed seedA) [.sentinel, .seeded reseedMore]).1 =
      { (runTrace (freshSeed seedA) [.sentinel, .seeded reseedMore]).1 with
          fetchStatus := .idle }) ∧
    (onFetchSettled (some stalePage)
        (runTrace (freshSeed seedA) [.sentinel, .seeded reseedMore]).1 =
      { edges := (runTrace (freshSeed seedA) [.sentinel, .seeded reseedMore]).1.edges
            ++ stalePage.edges
        pageInfo := stalePage.pageInfo
        lastAppendedCursor := stalePage.pageInfo.endCursor
        fetchStatus := .idle }) :=
  ⟨(c7_stale_result_handling
      (runTrace (freshSeed seedA) [.sentinel, .seeded reseedMore]).1 reseedMore).1
      (by decide),
   (c7_stale_result_handling
      (runTrace (freshSeed seedA) [.sentinel, .seeded reseedMore]).1 stalePage).2
      (by decide)⟩

/-- C8: for a seed followed by pages that each pass the duplicate-delivery
guard, the final items list is exactly the concatenation of the seed page's
items and the merged pages' items in arrival order — the merge appends and
never reorders. -/
theorem c8_order_preservation (P0 : ProductConnection) (ps : List ProductConnection)
    (hok : mergesOk (freshSeed P0) ps = true) :
    (mergeAll (freshSeed P0) ps).edges =
      P0.edges ++ (ps.map ProductConnection.edges).flatten :=
  mergeAll_edges ps (freshSeed P0) hok

/-- C8 (witness): seed `[a, b]`, then merge `[c, d]` (cursor `c2`) and
`[e]` (cursor `c3`): the final list is the concatenation in arrival order. -/
theorem c8_order_preservation_witness :
    (mergeAll (freshSeed seedAB) [pageCD, pageEF]).edges =
      seedAB.edges ++ ([pageCD, pageEF].map ProductConnection.edges).flatten :=
  c8_order_preservation seedAB [pageCD, pageEF] (by decide)

/-- C9: a fetched payload lacking its `data?.products` connection is treated
exactly like a fetch failure: the loader refuses to produce a page (it
throws 500 or 502), so the fetcher settles without data and the merge effect
returns early, mutating no pagination field — the page is never partially
merged. -/
theorem c9_malformed_page (payload : ProductsQuery) (s : ComponentState)
    (h : payloadProducts payload = none) :
    (∀ page, loaderResult payload ≠ Except.ok page) ∧
    onFetchSettled none s = { s with fetchStatus := .idle } := by
  refine ⟨?_, rfl⟩
  intro page
  rw [loaderResult]
  split
  · simp
  · rw [h]
    simp

/-- C9 (witness): the theorem at a payload whose `data` object carries no
`products` field, with the concrete page `seedAB` and the state freshly
seeded from `seedA`. -/
theorem c9_malformed_page_witness :
    loaderResult { data := some { products := none }, errors := none } ≠
      Except.ok seedAB ∧
    onFetchSettled none (freshSeed seedA) =
      { freshSeed seedA with fetchStatus := .idle } :=
  ⟨(c9_malformed_page { data := some { products := none }, errors := none }
      (freshSeed seedA) rfl).1 seedAB,
   (c9_malformed_page { data := some { products := none }, errors := none }
      (freshSeed seedA) rfl).2⟩

/-- C10: a state whose cursor is the empty string is treated exactly like a
null cursor: the observer effect installs no binding, a sentinel event
neither changes the state nor invokes the Fetcher, and the loader's URL
parsing (`get("after") || undefined`) drops an empty `after` parameter just
as it drops an absent one. -/
theorem c10_empty_cursor_exhaustion (s : ComponentState)
    (h : s.pageInfo.endCursor = some "") :
    bindingInstalled s = false ∧
    onSentinelVisible s = (s, false) ∧
    afterParam s.pageInfo.endCursor = afterParam none := by
  have hct : cursorTruthy s.pageInfo.endCursor = false := by
    rw [h]; rfl
  have hb : bindingInstalled s = false := by
    rw [bindingInstalled, hct]
    simp
  have ht : fetchTriggered s = false := by
    rw [fetchTriggered, hb]
    simp
  refine ⟨hb, ?_, ?_⟩
  · rw [onSentinelVisible, ht]
    simp
  · rw [h]
    rfl

/-- C10 (witness): the theorem at a state seeded from a page whose end
cursor is the empty string. -/
theorem c10_empty_cursor_exhaustion_witness :
    bindingInstalled (freshSeed { edges := [], pageInfo := { hasNextPage := true, endCursor := some "" } }) = false ∧
    onSentinelVisible (freshSeed { edges := [], pageInfo := { hasNextPage := true, endCursor := some "" } }) =
      (freshSeed { edges := [], pageInfo := { hasNextPage := true, endCursor := some "" } }, false) ∧
    afterParam (freshSeed { edges := [], pageInfo := { hasNextPage := true, endCursor := some "" } }).pageInfo.endCursor =
      afterParam none :=
  c10_empty_cursor_exhaustion
    (freshSeed { edges := [], pageInfo := { hasNextPage := true, endCursor := some "" } }) rfl
